import Mathlib

/-!
Shallow embedding of the Bottle Selection & Access-Control Engine of the
lovisa-bottles repository, together with theorems settling the claims about
its specification.

The embedding follows the TypeScript source:
* the image access-grant library (grantImageAccess, checkImageAccess, ...),
* the two bottle-open route variants (the plain one in
  src/app/api/bottles/open/route.ts and the schema-validated one),
* the journal-submission flow with candidate retrieval and the AI
  re-ranking fallback (pickBestBottle).

Machine integers are modelled as Int / Nat, timestamps as Int millisecond
counts, JS Date values as Int, nullable fields as Option, and fallible
calls as Except.  The Prisma interactive transaction is modelled as an
atomic step on an explicit store value: a failing transaction returns the
input store unchanged.
-/

namespace LovisaBottles

/-! ## Access-grant subsystem (src/unnamed/part_010, lib/image-access) -/

/-- A row of the images table (metadata of an uploaded media object). -/
structure ImageRec where
  id : String
  userId : Nat
  storageKey : String
deriving Repr, DecidableEq

/-- A row of the image_access table.  Per the repository's schema reference,
access_count defaults to 0, max_views and expires_at are nullable, and
(image_id, user_id) is unique. -/
structure ImageAccess where
  imageId : String
  userId : Nat
  accessCount : Int
  maxViews : Option Int
  expiresAt : Option Int
deriving Repr, DecidableEq

/-- The relational store seen by the access-grant library. -/
structure AccessStore where
  images : List ImageRec
  grants : List ImageAccess
deriving Repr, DecidableEq

def findImage (st : AccessStore) (imageId : String) : Option ImageRec :=
  st.images.find? (fun i => i.id == imageId)

def findGrant (st : AccessStore) (imageId : String) (userId : Nat) :
    Option ImageAccess :=
  st.grants.find? (fun g => g.imageId == imageId && g.userId == userId)

/-- Result shape of checkImageAccess: hasAccess plus an optional reason. -/
structure AccessCheckResult where
  hasAccess : Bool
  reason : Option String
deriving Repr, DecidableEq

def noAccessMsg : String := "No access granted"
def expiredMsg : String := "Access expired"
def maxViewsMsg : String := "Maximum views exceeded"
def errorCheckMsg : String := "Error checking access"

/-- Body of checkImageAccess after the prisma lookup succeeded: the chain of
checks on the found record, in source order. -/
def evalAccess (g : Option ImageAccess) (now : Int) : AccessCheckResult :=
  match g with
  | none => ⟨false, some noAccessMsg⟩
  | some access =>
    if (match access.expiresAt with
        | some e => decide (e < now)
        | none => false) then
      ⟨false, some expiredMsg⟩
    else if (match access.maxViews with
        | some m => decide (m ≤ access.accessCount)
        | none => false) then
      ⟨false, some maxViewsMsg⟩
    else
      ⟨true, none⟩

/-- checkImageAccess.  The argument is the outcome of the prisma
findUnique lookup; the catch branch of the source turns a lookup failure
into a denial instead of propagating it. -/
def checkImageAccess (lookup : Except Unit (Option ImageAccess)) (now : Int) :
    AccessCheckResult :=
  match lookup with
  | .error _ => ⟨false, some errorCheckMsg⟩
  | .ok g => evalAccess g now

/-- Modelled from the spec: the Check operation's reason precedence, written
from the spec's own words — (1) no grant record exists, (2) expiration
instant strictly in the past, (3) finite view ceiling with the counter at or
above it, otherwise Allowed.  Used only to compare with the source-derived
checkImageAccess. -/
def checkSpec (g : Option ImageAccess) (now : Int) : AccessCheckResult :=
  match g with
  | none => ⟨false, some noAccessMsg⟩
  | some a =>
    if _h1 : ∃ e, a.expiresAt = some e ∧ e < now then
      ⟨false, some expiredMsg⟩
    else if _h2 : ∃ m, a.maxViews = some m ∧ m ≤ a.accessCount then
      ⟨false, some maxViewsMsg⟩
    else
      ⟨true, none⟩

/-- grantImageAccess.  Checks that the image exists, then upserts the
(image, user) access record.  In the prisma update, a field whose supplied
value is undefined (modelled: none) is left unchanged; in the create, an
absent field gets its schema default (null limits, counter 0). -/
def grantImageAccess (st : AccessStore) (imageId : String) (userId : Nat)
    (maxViews : Option Int) (expiresAt : Option Int) :
    Except String (ImageAccess × AccessStore) :=
  match findImage st imageId with
  | none => .error "Image not found"
  | some _ =>
    match findGrant st imageId userId with
    | some g =>
      let newMax : Option Int := match maxViews with
        | some v => some v
        | none => g.maxViews
      let newExp : Option Int := match expiresAt with
        | some v => some v
        | none => g.expiresAt
      let g2 : ImageAccess := { g with maxViews := newMax, expiresAt := newExp }
      let grants2 := st.grants.map
        (fun o => if o.imageId == imageId && o.userId == userId then g2 else o)
      .ok (g2, { st with grants := grants2 })
    | none =>
      let g2 : ImageAccess := ⟨imageId, userId, 0, maxViews, expiresAt⟩
      .ok (g2, { st with grants := st.grants ++ [g2] })

/-- Number of grant rows stored for a given (image, user) key. -/
def grantKeyCount (st : AccessStore) (imageId : String) (userId : Nat) : Nat :=
  (st.grants.filter (fun g => g.imageId == imageId && g.userId == userId)).length

/-! ## Bottle data model and the open routes -/

/-- An authenticated user as seen by the route handlers. -/
structure User where
  id : Nat
  isAdmin : Bool
deriving Repr, DecidableEq

/-- A row of the bottles table.  mood and mood_embedding are nullable; the
assigned viewer only exists in the schema-validated variant. -/
structure Bottle where
  id : Nat
  name : String
  content : String
  assignedViewerId : Option Nat
  mood : Option String
  moodEmbedding : Option (List Rat)
deriving Repr, DecidableEq

/-- A row of the journal_entries table. -/
structure JournalEntry where
  id : Nat
  userId : Nat
  date : Int
  entry : String
deriving Repr, DecidableEq

/-- A row of the bottle_opens table; (bottleId, userId) is unique. -/
structure BottleOpen where
  bottleId : Nat
  userId : Nat
  journalEntryId : Nat
  openedAt : Int
deriving Repr, DecidableEq

/-- The relational store seen by the bottle routes.  nextJournalId models the
autoincrementing journal id sequence. -/
structure Store where
  bottles : List Bottle
  opens : List BottleOpen
  journals : List JournalEntry
  nextJournalId : Nat
deriving Repr, DecidableEq

def findBottle (st : Store) (bottleId : Nat) : Option Bottle :=
  st.bottles.find? (fun b => b.id == bottleId)

def findOpen (st : Store) (bottleId userId : Nat) : Option BottleOpen :=
  st.opens.find? (fun o => o.bottleId == bottleId && o.userId == userId)

/-- The openedToday findFirst query: is there a BottleOpen of this user whose
openedAt lies in the half-open window [todayStart, todayEnd) computed by the
route from the server-local clock? -/
def openedInWindow (st : Store) (userId : Nat) (todayStart todayEnd : Int) : Bool :=
  st.opens.any
    (fun o => o.userId == userId &&
      decide (todayStart ≤ o.openedAt) && decide (o.openedAt < todayEnd))

def alreadyOpenedMsg : String := "Bottle already opened"
def dailyLimitMsg : String := "You can only open one bottle per day"

/-- Outcome of an open-bottle request. -/
inductive OpenResult where
  | opened (bottleId : Nat) (journalId : Nat) (openedAt : Int)
  | notFound
  | forbidden
  | conflict (msg : String)
  | internalError
deriving Repr, DecidableEq

def OpenResult.isSuccess : OpenResult → Bool
  | .opened _ _ _ => true
  | _ => false

/-- POST of src/app/api/bottles/open/route.ts.  Admins skip both the
already-opened check and the daily-limit check, and the transaction upserts
their BottleOpen (updating journalEntryId and openedAt when a record exists).
Non-admins are pre-checked, and their create is backed by the uniqueness
constraint on (bottleId, userId): a violation rolls the transaction back. -/
def openRoute (st : Store) (user : User) (bottleId : Nat) (entry : String)
    (now todayStart todayEnd : Int) : OpenResult × Store :=
  match findBottle st bottleId with
  | none => (.notFound, st)
  | some _ =>
    if !user.isAdmin && (findOpen st bottleId user.id).isSome then
      (.conflict alreadyOpenedMsg, st)
    else if !user.isAdmin && openedInWindow st user.id todayStart todayEnd then
      (.conflict dailyLimitMsg, st)
    else
      let jid := st.nextJournalId
      let j : JournalEntry := ⟨jid, user.id, now, entry⟩
      let journals2 := st.journals ++ [j]
      if user.isAdmin then
        if (findOpen st bottleId user.id).isSome then
          let opens2 := st.opens.map
            (fun o => if o.bottleId == bottleId && o.userId == user.id then
              { o with journalEntryId := jid, openedAt := now } else o)
          (.opened bottleId jid now,
            { st with journals := journals2, opens := opens2, nextJournalId := jid + 1 })
        else
          (.opened bottleId jid now,
            { st with journals := journals2,
                      opens := st.opens ++ [⟨bottleId, user.id, jid, now⟩],
                      nextJournalId := jid + 1 })
      else
        if (findOpen st bottleId user.id).isSome then
          (.internalError, st)
        else
          (.opened bottleId jid now,
            { st with journals := journals2,
                      opens := st.opens ++ [⟨bottleId, user.id, jid, now⟩],
                      nextJournalId := jid + 1 })

/-- POST of the schema-validated open route (src/unnamed/part_002).  The
already-opened check applies to everyone including admins; non-admins must be
the assigned viewer and are subject to the daily limit. -/
def openRouteValidated (st : Store) (user : User) (bottleId : Nat) (entry : String)
    (now todayStart todayEnd : Int) : OpenResult × Store :=
  match findBottle st bottleId with
  | none => (.notFound, st)
  | some bottle =>
    if !user.isAdmin && !(bottle.assignedViewerId == some user.id) then
      (.forbidden, st)
    else if (findOpen st bottleId user.id).isSome then
      (.conflict alreadyOpenedMsg, st)
    else if !user.isAdmin && openedInWindow st user.id todayStart todayEnd then
      (.conflict dailyLimitMsg, st)
    else
      let jid := st.nextJournalId
      let j : JournalEntry := ⟨jid, user.id, now, entry⟩
      (.opened bottleId jid now,
        { st with journals := st.journals ++ [j],
                  opens := st.opens ++ [⟨bottleId, user.id, jid, now⟩],
                  nextJournalId := jid + 1 })

/-! ## Bottle selector (src/unnamed/part_018, lib/openai) -/

/-- Candidate presented to the re-ranking oracle: id, name, mood text. -/
structure CandidateBottle where
  id : Nat
  name : String
  mood : String
deriving Repr, DecidableEq

def digitsToNat (ds : List Char) : Nat :=
  ds.foldl (fun acc c => acc * 10 + (c.toNat - 48)) 0

def isJsSpace (c : Char) : Bool :=
  c == ' ' || c == '\t' || c == '\n' || c == '\r'

/-- JS String.prototype.trim: strip leading and trailing whitespace. -/
def jsTrim (s : String) : String :=
  String.mk (((s.toList.dropWhile isJsSpace).reverse.dropWhile isJsSpace).reverse)

/-- JS parseInt(s, 10): skip leading whitespace, optional sign, then the
longest leading run of decimal digits; NaN (none) when that run is empty. -/
def jsParseInt (s : String) : Option Int :=
  let cs := s.toList.dropWhile isJsSpace
  let signAndRest : Int × List Char :=
    match cs with
    | '-' :: t => (-1, t)
    | '+' :: t => (1, t)
    | t => (1, t)
  let digits := signAndRest.2.takeWhile Char.isDigit
  if digits.isEmpty then none
  else some (signAndRest.1 * (digitsToNat digits : Int))

def noBottlesProvidedMsg : String := "No bottles provided to pick from"
def noChoiceMsg : String := "Failed to get bottle choice from OpenAI"

/-- pickBestBottle.  reply is the oracle's message content (none when the
API returned null content).  Throws on an empty candidate list and on a
null-or-empty reply; an unparsable or out-of-range reply falls back to the
first candidate's id. -/
def pickBestBottle (bottles : List CandidateBottle) (reply : Option String) :
    Except String Nat :=
  match bottles with
  | [] => .error noBottlesProvidedMsg
  | b0 :: rest =>
    match reply with
    | none => .error noChoiceMsg
    | some r =>
      let choice := jsTrim r
      if choice.toList.isEmpty then .error noChoiceMsg
      else
        match jsParseInt choice with
        | none => .ok b0.id
        | some n =>
          if n < 1 || n > ((b0 :: rest).length : Int) then .ok b0.id
          else .ok ((((b0 :: rest).get? (n.toNat - 1)).getD b0).id)

/-! ## Candidate retriever and journal submission
(src/app/api/journal/submit/route.ts) -/

/-- Does a bottle satisfy the WHERE clause of the retrieval query: non-null
mood, non-null mood embedding, and id not among the user's opened ids? -/
def qualifies (openedIds : List Nat) (b : Bottle) : Bool :=
  b.mood.isSome && b.moodEmbedding.isSome && !(openedIds.contains b.id)

/-- The raw SQL retrieval query: filter on the WHERE clause, order by
ascending distance between the stored embedding and the query embedding
(the pgvector operator is abstracted as the dist argument), limit 5. -/
def retrieveCandidates (dist : List Rat → List Rat → Rat) (q : List Rat)
    (bottles : List Bottle) (openedIds : List Nat) : List Bottle :=
  ((bottles.filter (qualifies openedIds)).insertionSort
    (fun a b => dist (a.moodEmbedding.getD []) q ≤ dist (b.moodEmbedding.getD []) q)).take 5

/-- Bottle ids the user has already opened, as selected by the route. -/
def openedIdsOf (st : Store) (userId : Nat) : List Nat :=
  (st.opens.filter (fun o => o.userId == userId)).map (fun o => o.bottleId)

def alreadyTodayMsg : String := "Journal created. You already opened a bottle today."
def noBottlesLeftMsg : String := "Journal created. No bottles left to open."
def bottleOpenedMsg : String := "Journal created and bottle opened!"

/-- Outcome of a journal submission. -/
inductive SubmitResult where
  | journalOnly (journalId : Nat) (message : String)
  | openedBottle (journalId : Nat) (bottleId : Nat) (message : String)
  | internalError
deriving Repr, DecidableEq

/-- POST of src/app/api/journal/submit/route.ts.  The embedding provider and
re-ranking oracle are external: queryEmbedding is the embedding of the
oracle-generated mood query, oracleReply the oracle's raw pick reply, and
dist the store's vector-distance operator.  A thrown pickBestBottle error is
caught as a 500 with nothing persisted; the final create pair is one
transaction whose BottleOpen insert is backed by the (bottleId, userId)
uniqueness constraint. -/
def submitJournal (dist : List Rat → List Rat → Rat) (st : Store) (user : User)
    (entry : String) (queryEmbedding : List Rat) (oracleReply : Option String)
    (now todayStart todayEnd : Int) : SubmitResult × Store :=
  if !user.isAdmin && openedInWindow st user.id todayStart todayEnd then
    let jid := st.nextJournalId
    (.journalOnly jid alreadyTodayMsg,
      { st with journals := st.journals ++ [⟨jid, user.id, now, entry⟩],
                nextJournalId := jid + 1 })
  else
    let topBottles := retrieveCandidates dist queryEmbedding st.bottles (openedIdsOf st user.id)
    match topBottles with
    | [] =>
      let jid := st.nextJournalId
      (.journalOnly jid noBottlesLeftMsg,
        { st with journals := st.journals ++ [⟨jid, user.id, now, entry⟩],
                  nextJournalId := jid + 1 })
    | b0 :: rest =>
      let bottlesForAI := (b0 :: rest).map
        (fun b => CandidateBottle.mk b.id b.name (b.mood.getD "No mood description"))
      match pickBestBottle bottlesForAI oracleReply with
      | .error _ => (.internalError, st)
      | .ok selectedBottleId =>
        let finalBottle := (((b0 :: rest).find? (fun b => b.id == selectedBottleId)).getD b0)
        if (findOpen st finalBottle.id user.id).isSome then
          (.internalError, st)
        else
          let jid := st.nextJournalId
          (.openedBottle jid finalBottle.id bottleOpenedMsg,
            { st with journals := st.journals ++ [⟨jid, user.id, now, entry⟩],
                      opens := st.opens ++ [⟨finalBottle.id, user.id, jid, now⟩],
                      nextJournalId := jid + 1 })

/-! ## Grant-access route (src/app/api/images/[id]/grant-access/route.ts) -/

/-- A request body that already passed the zod grantAccessSchema: userId is a
number, maxViews an optional number, expiresAt an optional datetime.  The
schema imposes no positivity or integrality bound on maxViews. -/
structure GrantBody where
  userId : Nat
  maxViews : Option Int
  expiresAt : Option Int
deriving Repr, DecidableEq

/-- Outcome of the grant-access route. -/
inductive GrantRouteResult where
  | success (access : ImageAccess)
  | forbidden
  | validationFailed
  | serverError (msg : String)
deriving Repr, DecidableEq

/-- POST of src/app/api/images/[id]/grant-access/route.ts: admin gate, zod
parse (a well-typed GrantBody always passes), then grantImageAccess. -/
def grantAccessRoute (st : AccessStore) (user : User) (imageId : String)
    (body : GrantBody) : GrantRouteResult × AccessStore :=
  if !user.isAdmin then (.forbidden, st)
  else
    match grantImageAccess st imageId body.userId body.maxViews body.expiresAt with
    | .error msg => (.serverError msg, st)
    | .ok (g, st2) => (.success g, st2)

deriving instance DecidableEq for Except

/-! ## Helper lemmas -/

/-- Every failing branch of openRoute returns the input store unchanged. -/
lemma openRoute_success_or_unchanged (st : Store) (user : User) (bottleId : Nat)
    (entry : String) (now s e : Int) :
    (openRoute st user bottleId entry now s e).1.isSuccess = true ∨
    (openRoute st user bottleId entry now s e).2 = st := by
  unfold openRoute
  split
  · exact Or.inr rfl
  · split_ifs <;> simp [OpenResult.isSuccess]

/-- Every failing branch of openRouteValidated returns the input store
unchanged. -/
lemma openRouteValidated_success_or_unchanged (st : Store) (user : User)
    (bottleId : Nat) (entry : String) (now s e : Int) :
    (openRouteValidated st user bottleId entry now s e).1.isSuccess = true ∨
    (openRouteValidated st user bottleId entry now s e).2 = st := by
  unfold openRouteValidated
  split
  · exact Or.inr rfl
  · split_ifs <;> simp [OpenResult.isSuccess]

/-- The internal-error branches of submitJournal return the input store
unchanged. -/
lemma submitJournal_internal_unchanged (dist : List Rat → List Rat → Rat)
    (st : Store) (user : User) (entry : String) (q : List Rat)
    (reply : Option String) (now s e : Int) :
    (submitJournal dist st user entry q reply now s e).1 ≠ .internalError ∨
    (submitJournal dist st user entry q reply now s e).2 = st := by
  unfold submitJournal
  dsimp only
  split_ifs
  · left; simp
  · split
    · left; simp
    · split
      · right; rfl
      · split_ifs
        · right; rfl
        · left; simp

/-! ## Claim theorems -/

/-- C2: the Check operation evaluates denial reasons in the spec's exact
order — no grant, then expiration strictly in the past, then finite view
ceiling reached — returning the first that applies, Allowed otherwise; in
particular expiration takes precedence over the view ceiling.  Stated as:
on any successful lookup, the source checkImageAccess coincides with the
spec-derived precedence function checkSpec. -/
theorem C2_check_order (g : Option ImageAccess) (now : Int) :
    checkImageAccess (.ok g) now = checkSpec g now := by
  cases g with
  | none => rfl
  | some a =>
    simp only [checkImageAccess, evalAccess, checkSpec]
    cases he : a.expiresAt with
    | none =>
      cases hm : a.maxViews with
      | none => simp
      | some m => simp
    | some ev =>
      cases hm : a.maxViews with
      | none => simp
      | some m => simp

/-- C10: checkImageAccess is total over lookup failures: when the underlying
grant lookup fails it returns a denial with the reason Error checking
access, a fourth reason distinct from the three the spec enumerates, rather
than raising. -/
theorem C10_check_total_on_failure (err : Unit) (now : Int) :
    checkImageAccess (.error err) now = ⟨false, some errorCheckMsg⟩ ∧
    errorCheckMsg ≠ noAccessMsg ∧ errorCheckMsg ≠ expiredMsg ∧
    errorCheckMsg ≠ maxViewsMsg :=
  ⟨rfl, by decide, by decide, by decide⟩

/-- C6: every Open Transaction that fails at any step — existence check,
ownership check, exclusivity check, daily-limit check, or either create
(the BottleOpen insert being backed by its uniqueness constraint) — leaves
the store exactly as it was: no JournalEntry and no BottleOpen from that
submission persists.  Stated for both open-route variants and for the final
transaction of the journal-submission flow. -/
theorem C6_all_or_nothing :
    (∀ (st : Store) (user : User) (bottleId : Nat) (entry : String) (now s e : Int),
      (openRoute st user bottleId entry now s e).1.isSuccess = false →
      (openRoute st user bottleId entry now s e).2 = st) ∧
    (∀ (st : Store) (user : User) (bottleId : Nat) (entry : String) (now s e : Int),
      (openRouteValidated st user bottleId entry now s e).1.isSuccess = false →
      (openRouteValidated st user bottleId entry now s e).2 = st) ∧
    (∀ (dist : List Rat → List Rat → Rat) (st : Store) (user : User)
        (entry : String) (q : List Rat) (reply : Option String) (now s e : Int),
      (submitJournal dist st user entry q reply now s e).1 = .internalError →
      (submitJournal dist st user entry q reply now s e).2 = st) := by
  refine ⟨fun st user bottleId entry now s e h => ?_,
    fun st user bottleId entry now s e h => ?_,
    fun dist st user entry q reply now s e h => ?_⟩
  · rcases openRoute_success_or_unchanged st user bottleId entry now s e with hs | hst
    · rw [h] at hs; exact absurd hs (by simp)
    · exact hst
  · rcases openRouteValidated_success_or_unchanged st user bottleId entry now s e with hs | hst
    · rw [h] at hs; exact absurd hs (by simp)
    · exact hst
  · rcases submitJournal_internal_unchanged dist st user entry q reply now s e with hs | hst
    · exact absurd h hs
    · exact hst

/-- Witness for C6 at a concrete failing input: opening a bottle that does
not exist leaves the empty store unchanged. -/
theorem C6_witness :
    (openRoute ⟨[], [], [], 0⟩ ⟨5, false⟩ 1 "x" 0 0 1).2 = ⟨[], [], [], 0⟩ :=
  C6_all_or_nothing.1 ⟨[], [], [], 0⟩ ⟨5, false⟩ 1 "x" 0 0 1 (by decide)

/-- C8: when the Candidate Retriever returns the empty sequence, the
journal submission still persists the JournalEntry and returns its id to
the caller, and no BottleOpen record is created: the resulting store is the
input store with exactly the new journal row appended and opens untouched. -/
theorem C8_no_candidates_journal_only (dist : List Rat → List Rat → Rat)
    (st : Store) (user : User) (entry : String) (q : List Rat)
    (reply : Option String) (now s e : Int)
    (hDay : (!user.isAdmin && openedInWindow st user.id s e) = false)
    (hEmpty : retrieveCandidates dist q st.bottles (openedIdsOf st user.id) = []) :
    submitJournal dist st user entry q reply now s e =
      (.journalOnly st.nextJournalId noBottlesLeftMsg,
        { st with journals := st.journals ++ [⟨st.nextJournalId, user.id, now, entry⟩],
                  nextJournalId := st.nextJournalId + 1 }) := by
  unfold submitJournal
  rw [hDay]
  dsimp only
  rw [hEmpty]
  simp

/-- Witness for C8: a store whose only bottle lacks a mood description
yields no candidates; the journal row is appended and no BottleOpen is
created. -/
theorem C8_witness :
    submitJournal (fun a _ => a.headD 0)
        ⟨[⟨3, "b", "c", none, none, some [1]⟩], [], [], 4⟩ ⟨5, false⟩
        "hello" [0] (some "1") 100 0 1000 =
      (.journalOnly 4 noBottlesLeftMsg,
        ⟨[⟨3, "b", "c", none, none, some [1]⟩], [],
          [⟨4, 5, 100, "hello"⟩], 5⟩) :=
  C8_no_candidates_journal_only (fun a _ => a.headD 0)
    ⟨[⟨3, "b", "c", none, none, some [1]⟩], [], [], 4⟩ ⟨5, false⟩
    "hello" [0] (some "1") 100 0 1000 (by decide) (by decide)

/-- Store for the C1 counterexample: bottle 1 exists and admin user 7
already has a BottleOpen for it. -/
def c1Store : Store :=
  ⟨[⟨1, "b1", "c", none, none, none⟩], [⟨1, 7, 0, 5⟩], [], 10⟩

/-- C1 counterexample: in the plain open route
(src/app/api/bottles/open/route.ts), an admin who already opened bottle 1
is NOT rejected with Conflict — the request succeeds, a new JournalEntry is
persisted and the existing BottleOpen is updated to the new journal id and
timestamp, contradicting the claim at this concrete input. -/
theorem C1_counterexample :
    findOpen c1Store 1 7 = some ⟨1, 7, 0, 5⟩ ∧
    (openRoute c1Store ⟨7, true⟩ 1 "hi" 100 0 1000).1 = .opened 1 10 100 ∧
    (openRoute c1Store ⟨7, true⟩ 1 "hi" 100 0 1000).1 ≠ .conflict alreadyOpenedMsg ∧
    (openRoute c1Store ⟨7, true⟩ 1 "hi" 100 0 1000).2.opens = [⟨1, 7, 10, 100⟩] ∧
    (openRoute c1Store ⟨7, true⟩ 1 "hi" 100 0 1000).2.journals =
      [⟨10, 7, 100, "hi"⟩] := by decide

/-- C1 amended: in the schema-validated open route (src/unnamed/part_002),
a privileged user who already opened the target bottle is rejected with
Conflict (already opened) and nothing is persisted, and the daily-limit
conflict can never be the outcome for a privileged user; in the plain open
route variant, however, privileged users skip the exclusivity check and a
re-open succeeds, updating the existing BottleOpen. -/
theorem C1_admin_exclusivity :
    (∀ (st : Store) (user : User) (bottleId : Nat) (entry : String)
        (now s e : Int) (b : Bottle) (o : BottleOpen),
      user.isAdmin = true →
      findBottle st bottleId = some b →
      findOpen st bottleId user.id = some o →
      openRouteValidated st user bottleId entry now s e =
        (.conflict alreadyOpenedMsg, st)) ∧
    (∀ (st : Store) (user : User) (bottleId : Nat) (entry : String)
        (now s e : Int),
      user.isAdmin = true →
      (openRouteValidated st user bottleId entry now s e).1 ≠
        .conflict dailyLimitMsg) := by
  constructor
  · intro st user bottleId entry now s e b o hAdmin hB hO
    unfold openRouteValidated
    rw [hB]
    simp [hAdmin, hO]
  · intro st user bottleId entry now s e hAdmin
    unfold openRouteValidated
    split
    · simp
    · simp only [hAdmin, Bool.not_true, Bool.false_and, Bool.false_eq_true,
        if_false]
      split_ifs with h1
      · exact fun h => absurd (OpenResult.conflict.inj h) (by decide)
      · simp

/-- Witness for C1 at a concrete input: the validated route rejects admin
user 7 re-opening bottle 1 with the already-opened Conflict, unchanged
store. -/
theorem C1_witness :
    openRouteValidated c1Store ⟨7, true⟩ 1 "hi" 100 0 1000 =
      (.conflict alreadyOpenedMsg, c1Store) :=
  C1_admin_exclusivity.1 c1Store ⟨7, true⟩ 1 "hi" 100 0 1000
    ⟨1, "b1", "c", none, none, none⟩ ⟨1, 7, 0, 5⟩ rfl (by decide) (by decide)

/-- Store for the C4 counterexample: non-privileged user 5 already committed
an open of bottle 1 today (openedAt 10 lies in the day window [0, 1000)). -/
def c4Store : Store :=
  ⟨[⟨1, "b1", "c", none, none, none⟩, ⟨2, "b2", "c", none, none, none⟩],
    [⟨1, 5, 0, 10⟩], [], 3⟩

/-- C4 counterexample: a non-privileged user who already opened bottle 1
today and targets bottle 1 again on the same day is rejected with the
already-opened Conflict, not the daily-limit Conflict the claim names for
every further open regardless of target. -/
theorem C4_counterexample :
    openedInWindow c4Store 5 0 1000 = true ∧
    (openRoute c4Store ⟨5, false⟩ 1 "x" 500 0 1000).1 = .conflict alreadyOpenedMsg ∧
    (openRoute c4Store ⟨5, false⟩ 1 "x" 500 0 1000).1 ≠ .conflict dailyLimitMsg := by
  decide

/-- C4 amended: for a non-privileged user who has already committed an open
within the current server-local calendar day, every further open attempt on
an existing bottle that same day yields a Conflict and creates nothing —
the daily-limit Conflict when the target differs from every bottle they
already opened, and the already-opened Conflict when the target is such a
bottle; in the schema-validated variant the same holds for a target
assigned to the user. -/
theorem C4_daily_limit (st : Store) (user : User) (bottleId : Nat)
    (entry : String) (now s e : Int) (b : Bottle)
    (hAdmin : user.isAdmin = false)
    (hB : findBottle st bottleId = some b)
    (hToday : openedInWindow st user.id s e = true) :
    (findOpen st bottleId user.id = none →
      openRoute st user bottleId entry now s e = (.conflict dailyLimitMsg, st)) ∧
    ((findOpen st bottleId user.id).isSome = true →
      openRoute st user bottleId entry now s e = (.conflict alreadyOpenedMsg, st)) ∧
    (b.assignedViewerId = some user.id → findOpen st bottleId user.id = none →
      openRouteValidated st user bottleId entry now s e =
        (.conflict dailyLimitMsg, st)) := by
  refine ⟨fun hNone => ?_, fun hSome => ?_, fun hAssigned hNone => ?_⟩
  · unfold openRoute
    rw [hB]
    simp [hAdmin, hNone, hToday]
  · unfold openRoute
    rw [hB]
    simp [hAdmin, hSome]
  · unfold openRouteValidated
    rw [hB]
    simp [hAdmin, hAssigned, hNone, hToday]

/-- Witness for C4 at a concrete input: user 5 already opened bottle 1
today, so targeting existing bottle 2 the same day yields the daily-limit
Conflict with the store unchanged. -/
theorem C4_witness :
    openRoute c4Store ⟨5, false⟩ 2 "x" 500 0 1000 = (.conflict dailyLimitMsg, c4Store) :=
  (C4_daily_limit c4Store ⟨5, false⟩ 2 "x" 500 0 1000
    ⟨2, "b2", "c", none, none, none⟩ rfl (by decide) (by decide)).1 (by decide)

/-- C3 counterexample: the empty reply does not parse as an integer, yet
with a non-empty candidate list pickBestBottle does not fall back to the
first candidate — it throws (fails the request), contradicting the claim
that an unparsable reply never fails the request. -/
theorem C3_counterexample :
    jsParseInt (jsTrim "") = none ∧
    pickBestBottle [⟨1, "a", "m"⟩] (some "") = .error noChoiceMsg := by decide

/-- C3 amended: for every non-empty candidate list and every oracle reply
that is non-empty after trimming, if the reply does not parse as an integer
or parses outside [1, N] the selector returns the first (closest-distance)
candidate's id; a null or empty reply is instead treated as an upstream
failure and throws. -/
theorem C3_fallback_to_first (b0 : CandidateBottle) (rest : List CandidateBottle)
    (r : String)
    (hne : (jsTrim r).toList.isEmpty = false)
    (hbad : jsParseInt (jsTrim r) = none ∨
      ∃ n : Int, jsParseInt (jsTrim r) = some n ∧
        (n < 1 ∨ n > ((b0 :: rest).length : Int))) :
    pickBestBottle (b0 :: rest) (some r) = .ok b0.id := by
  unfold pickBestBottle
  dsimp only
  rw [hne]
  simp only [Bool.false_eq_true, if_false]
  rcases hbad with h | ⟨n, hn, hrange⟩
  · rw [h]
  · rw [hn]
    dsimp only
    split_ifs with hc
    · rfl
    · exfalso
      simp only [Bool.or_eq_true, decide_eq_true_eq, not_or] at hc
      rcases hrange with h1 | h2
      · exact hc.1 h1
      · exact hc.2 h2

/-- Witness for C3 at a concrete input: reply 9 with two candidates is out
of range, so the first candidate (id 1) is returned. -/
theorem C3_witness :
    pickBestBottle [⟨1, "a", "m"⟩, ⟨2, "b", "n"⟩] (some "9") = .ok 1 :=
  C3_fallback_to_first ⟨1, "a", "m"⟩ [⟨2, "b", "n"⟩] "9" (by decide)
    (Or.inr ⟨9, by decide, Or.inr (by decide)⟩)

/-- When a bottle id is not among the user's opened ids, no BottleOpen row
links it to that user. -/
lemma findOpen_eq_none_of_not_contains (st : Store) (bid uid : Nat)
    (h : (openedIdsOf st uid).contains bid = false) :
    findOpen st bid uid = none := by
  unfold findOpen
  rw [List.find?_eq_none]
  intro o ho hpred
  simp only [Bool.and_eq_true, beq_iff_eq] at hpred
  have hmem : bid ∈ openedIdsOf st uid := by
    unfold openedIdsOf
    refine List.mem_map.mpr ⟨o, ?_, hpred.1⟩
    refine List.mem_filter.mpr ⟨ho, ?_⟩
    simp [hpred.2]
  simp at h
  exact h hmem

/-- C5: the Candidate Retriever returns at most 5 bottles, every returned
bottle has a non-null mood and mood embedding and no BottleOpen for the
requesting user, the sequence is ordered by ascending distance between the
stored embedding and the query embedding, and when no bottle qualifies it
returns the empty sequence (not an error). -/
theorem C5_candidate_retriever (dist : List Rat → List Rat → Rat) (q : List Rat)
    (st : Store) (uid : Nat) :
    (retrieveCandidates dist q st.bottles (openedIdsOf st uid)).length ≤ 5 ∧
    (∀ b ∈ retrieveCandidates dist q st.bottles (openedIdsOf st uid),
      b.mood.isSome = true ∧ b.moodEmbedding.isSome = true ∧
      findOpen st b.id uid = none ∧ b ∈ st.bottles) ∧
    (retrieveCandidates dist q st.bottles (openedIdsOf st uid)).Pairwise
      (fun a b => dist (a.moodEmbedding.getD []) q ≤ dist (b.moodEmbedding.getD []) q) ∧
    ((∀ b ∈ st.bottles, qualifies (openedIdsOf st uid) b = false) →
      retrieveCandidates dist q st.bottles (openedIdsOf st uid) = []) := by
  refine ⟨?_, ?_, ?_, ?_⟩
  · unfold retrieveCandidates
    rw [List.length_take]
    exact min_le_left _ _
  · intro b hb
    unfold retrieveCandidates at hb
    have hb1 := List.mem_of_mem_take hb
    rw [List.mem_insertionSort] at hb1
    obtain ⟨hmem, hq⟩ := List.mem_filter.mp hb1
    unfold qualifies at hq
    simp only [Bool.and_eq_true, Bool.not_eq_true'] at hq
    exact ⟨hq.1.1, hq.1.2, findOpen_eq_none_of_not_contains st b.id uid hq.2, hmem⟩
  · unfold retrieveCandidates
    haveI : IsTotal Bottle
        (fun a b => dist (a.moodEmbedding.getD []) q ≤ dist (b.moodEmbedding.getD []) q) :=
      ⟨fun a b => le_total _ _⟩
    haveI : IsTrans Bottle
        (fun a b => dist (a.moodEmbedding.getD []) q ≤ dist (b.moodEmbedding.getD []) q) :=
      ⟨fun a b c hab hbc => le_trans hab hbc⟩
    exact (List.sorted_insertionSort _ _).sublist (List.take_sublist _ _)
  · intro hall
    unfold retrieveCandidates
    rw [List.filter_eq_nil_iff.mpr (fun b hbmem => by simp [hall b hbmem])]
    rfl

/-- Witness for C5: a store whose only bottle lacks a mood yields no
candidates, so the retriever returns the empty sequence. -/
theorem C5_witness :
    retrieveCandidates (fun a _ => a.headD 0) [0]
      (Store.mk [⟨3, "b", "c", none, none, some [1]⟩] [] [] 0).bottles
      (openedIdsOf (Store.mk [⟨3, "b", "c", none, none, some [1]⟩] [] [] 0) 4) = [] :=
  (C5_candidate_retriever (fun a _ => a.headD 0) [0]
    (Store.mk [⟨3, "b", "c", none, none, some [1]⟩] [] [] 0) 4).2.2.2 (by decide)

/-- Replacing every row of a given (image, user) key by a row with the same
key leaves every key's row count unchanged. -/
lemma grantKeyCount_map_replace (l : List ImageAccess) (g2 : ImageAccess)
    (m : String) (u : Nat) (him : g2.imageId = m) (hu : g2.userId = u)
    (m' : String) (u' : Nat) :
    ((l.map (fun o => if o.imageId == m && o.userId == u then g2 else o)).filter
        (fun g => g.imageId == m' && g.userId == u')).length =
    (l.filter (fun g => g.imageId == m' && g.userId == u')).length := by
  induction l with
  | nil => rfl
  | cons o t ih =>
    by_cases h : (o.imageId == m && o.userId == u) = true
    · simp only [List.map_cons, if_pos h, List.filter_cons]
      simp only [Bool.and_eq_true, beq_iff_eq] at h
      have hkey : (g2.imageId == m' && g2.userId == u') =
          (o.imageId == m' && o.userId == u') := by
        rw [him, hu, h.1, h.2]
      rw [hkey]
      split_ifs
      · simp only [List.length_cons, ih]
      · exact ih
    · simp only [List.map_cons, if_neg h, List.filter_cons]
      split_ifs
      · simp only [List.length_cons, ih]
      · exact ih

/-- When no grant row matches a key, the key's row count is zero. -/
lemma grantKeyCount_eq_zero_of_findGrant_none (st : AccessStore) (m : String)
    (u : Nat) (h : findGrant st m u = none) : grantKeyCount st m u = 0 := by
  unfold grantKeyCount
  rw [List.length_eq_zero, List.filter_eq_nil_iff]
  unfold findGrant at h
  rw [List.find?_eq_none] at h
  exact h

/-- Access store for the C7 counterexample: image i exists and user 4 holds
a grant with maxViews 3, expiresAt 50, counter 2. -/
def c7Store : AccessStore := ⟨[⟨"i", 1, "k"⟩], [⟨"i", 4, 2, some 3, some 50⟩]⟩

/-- C7 counterexample: re-granting with no limit values passed does not
replace the stored limits with the passed values — the stored maxViews
stays some 3 and expiresAt stays some 50 although the call passed none for
both, contradicting replace-with-the-passed-values at this input. -/
theorem C7_counterexample :
    findGrant c7Store "i" 4 = some ⟨"i", 4, 2, some 3, some 50⟩ ∧
    grantImageAccess c7Store "i" 4 none none =
      .ok (⟨"i", 4, 2, some 3, some 50⟩, c7Store) ∧
    (some 3 : Option Int) ≠ none ∧ (some 50 : Option Int) ≠ none := by decide

/-- C7 amended: Grant fails with NotFound when the media object does not
exist; on an existing (media, grantee) grant it keeps the access counter,
overwrites each limit with the passed value when one is present and leaves
that limit unchanged when the option is absent, and preserves every key's
row count; with no existing grant it creates exactly one record with
counter 0 and the passed limits, leaving all other keys untouched — so
exactly one AccessGrant per (media, grantee) pair is maintained. -/
theorem C7_grant_upsert (st : AccessStore) (imageId : String) (userId : Nat)
    (mv ea : Option Int) :
    (findImage st imageId = none →
      grantImageAccess st imageId userId mv ea = .error "Image not found") ∧
    (∀ i g, findImage st imageId = some i →
      findGrant st imageId userId = some g →
      ∃ g2 st2, grantImageAccess st imageId userId mv ea = .ok (g2, st2) ∧
        g2.accessCount = g.accessCount ∧
        g2.maxViews = (match mv with | some v => some v | none => g.maxViews) ∧
        g2.expiresAt = (match ea with | some v => some v | none => g.expiresAt) ∧
        (∀ m u, grantKeyCount st2 m u = grantKeyCount st m u)) ∧
    (∀ i, findImage st imageId = some i →
      findGrant st imageId userId = none →
      ∃ st2, grantImageAccess st imageId userId mv ea =
          .ok (⟨imageId, userId, 0, mv, ea⟩, st2) ∧
        grantKeyCount st imageId userId = 0 ∧
        grantKeyCount st2 imageId userId = 1 ∧
        (∀ m u, ¬(m = imageId ∧ u = userId) →
          grantKeyCount st2 m u = grantKeyCount st m u)) := by
  refine ⟨fun h => ?_, fun i g hI hG => ?_, fun i hI hG => ?_⟩
  · unfold grantImageAccess
    rw [h]
  · have hkey := List.find?_some hG
    simp only [Bool.and_eq_true, beq_iff_eq] at hkey
    unfold grantImageAccess
    rw [hI, hG]
    refine ⟨_, _, rfl, rfl, rfl, rfl, fun m u => ?_⟩
    unfold grantKeyCount
    dsimp only
    exact grantKeyCount_map_replace st.grants
      ⟨g.imageId, g.userId, g.accessCount,
        (match mv with | some v => some v | none => g.maxViews),
        (match ea with | some v => some v | none => g.expiresAt)⟩
      imageId userId hkey.1 hkey.2 m u
  · unfold grantImageAccess
    rw [hI, hG]
    have hzero := grantKeyCount_eq_zero_of_findGrant_none st imageId userId hG
    refine ⟨_, rfl, hzero, ?_, fun m u hne => ?_⟩
    · unfold grantKeyCount at hzero ⊢
      rw [List.filter_append, List.length_append, hzero]
      simp
    · unfold grantKeyCount
      rw [List.filter_append, List.length_append]
      have hz : (List.filter (fun g => g.imageId == m && g.userId == u)
          [(⟨imageId, userId, 0, mv, ea⟩ : ImageAccess)]).length = 0 := by
        rw [List.length_eq_zero, List.filter_eq_nil_iff]
        intro a ha
        simp only [List.mem_singleton] at ha
        subst ha
        simp only [Bool.and_eq_true, beq_iff_eq, not_and]
        intro h1 h2
        exact hne ⟨h1.symm, h2.symm⟩
      rw [hz, Nat.add_zero]

/-- Witness for C7 at a concrete input: re-granting user 4's access to
image i with maxViews 7 replaces the ceiling, keeps the counter at 2, and
every key still has its previous row count. -/
theorem C7_witness :
    grantImageAccess c7Store "i" 4 (some 7) none =
      .ok (⟨"i", 4, 2, some 7, some 50⟩, ⟨[⟨"i", 1, "k"⟩], [⟨"i", 4, 2, some 7, some 50⟩]⟩) ∧
    grantKeyCount c7Store "i" 4 = 1 := by
  have h := (C7_grant_upsert c7Store "i" 4 (some 7) none).2.1 ⟨"i", 1, "k"⟩
    ⟨"i", 4, 2, some 3, some 50⟩ (by decide) (by decide)
  obtain ⟨g2, st2, heq, _, _, _, hcount⟩ := h
  refine ⟨?_, by decide⟩
  rw [heq]
  have hg2 : g2 = ⟨"i", 4, 2, some 7, some 50⟩ := by
    have := heq
    rw [show grantImageAccess c7Store "i" 4 (some 7) none =
      .ok (⟨"i", 4, 2, some 7, some 50⟩,
        ⟨[⟨"i", 1, "k"⟩], [⟨"i", 4, 2, some 7, some 50⟩]⟩) from by decide] at this
    exact (Prod.mk.injEq _ _ _ _).mp (Except.ok.inj this) |>.1.symm
  have hst2 : st2 = ⟨[⟨"i", 1, "k"⟩], [⟨"i", 4, 2, some 7, some 50⟩]⟩ := by
    have := heq
    rw [show grantImageAccess c7Store "i" 4 (some 7) none =
      .ok (⟨"i", 4, 2, some 7, some 50⟩,
        ⟨[⟨"i", 1, "k"⟩], [⟨"i", 4, 2, some 7, some 50⟩]⟩) from by decide] at this
    exact (Prod.mk.injEq _ _ _ _).mp (Except.ok.inj this) |>.2.symm
  rw [hg2, hst2]

/-- Access store for the C9 counterexample: image i exists, no grants. -/
def c9Store : AccessStore := ⟨[⟨"i", 1, "k"⟩], []⟩

/-- C9 counterexample: a grant request whose max-views field is present but
zero — not a positive integer — is not rejected as a Validation error: the
route succeeds and a grant with maxViews 0 is persisted, mutating the
store. -/
theorem C9_counterexample :
    (grantAccessRoute c9Store ⟨1, true⟩ "i" ⟨5, some 0, none⟩).1 =
      .success ⟨"i", 5, 0, some 0, none⟩ ∧
    (grantAccessRoute c9Store ⟨1, true⟩ "i" ⟨5, some 0, none⟩).2 ≠ c9Store ∧
    (grantAccessRoute c9Store ⟨1, true⟩ "i" ⟨5, some 0, none⟩).2.grants =
      [⟨"i", 5, 0, some 0, none⟩] := by decide

/-- C9 amended: the grant-access schema validates max-views only as being a
number — any numeric value, zero and negatives included, passes validation;
for an admin caller and an existing image the request succeeds, the passed
value is stored as the grant's view ceiling, and the request is never
rejected as a validation failure. -/
theorem C9_maxviews_unvalidated (st : AccessStore) (user : User)
    (imageId : String) (body : GrantBody) (v : Int) (i : ImageRec)
    (hAdmin : user.isAdmin = true)
    (hmv : body.maxViews = some v)
    (hImg : findImage st imageId = some i) :
    ∃ g st2, grantAccessRoute st user imageId body = (.success g, st2) ∧
      g.maxViews = some v ∧
      (grantAccessRoute st user imageId body).1 ≠ .validationFailed := by
  unfold grantAccessRoute grantImageAccess
  rw [hImg]
  simp only [hAdmin, Bool.not_true, Bool.false_eq_true, if_false]
  cases hG : findGrant st imageId body.userId with
  | some g0 =>
    refine ⟨_, _, rfl, ?_, ?_⟩
    · dsimp only
      rw [hmv]
    · intro h
      exact GrantRouteResult.noConfusion h
  | none =>
    refine ⟨_, _, rfl, ?_, ?_⟩
    · dsimp only
      rw [hmv]
    · intro h
      exact GrantRouteResult.noConfusion h

/-- Witness for C9 at a concrete input: maxViews −2 is accepted and stored
for user 5 on image i. -/
theorem C9_witness :
    ∃ g st2, grantAccessRoute c9Store ⟨1, true⟩ "i" ⟨5, some (-2), none⟩ =
        (.success g, st2) ∧
      g.maxViews = some (-2) ∧
      (grantAccessRoute c9Store ⟨1, true⟩ "i" ⟨5, some (-2), none⟩).1 ≠
        .validationFailed :=
  C9_maxviews_unvalidated c9Store ⟨1, true⟩ "i" ⟨5, some (-2), none⟩ (-2)
    ⟨"i", 1, "k"⟩ rfl rfl (by decide)

end LovisaBottles
